import Mathlib

/-!
Verification development for the homebridge-resideo plugin
(repository `d0n4v4nb3ck3r/homebridge-honeywell-home`).

The relevant TypeScript source is shallowly embedded below:
* `src/utils.ts` — unit conversion and mode tables;
* `src/devices/thermostats.ts` — the thermostat adapter (mirror state,
  setter handlers, debounced push coalescing, payload construction,
  error handling);
* `src/devices/valve.ts` — the valve adapter (refreshStatus, pushChanges,
  apiError);
* `src/platform.ts` — the shared sensor cache, registerDevice, the token
  lifecycle and config verification.

Modelling conventions: JavaScript numbers are rationals (`ℚ`),
`Math.round` is `jsRound` (round half towards positive infinity),
values that can be `undefined` are `Option`, thrown exceptions are
`Except`, and I/O side effects are reified as explicit effect lists.
-/

/-- JavaScript `Math.round`: rounds to the nearest integer, halves towards
positive infinity, i.e. `⌊x + 1/2⌋`. -/
def jsRound (x : ℚ) : ℤ := ⌊x + 1/2⌋

/-- `toCelsius` from `src/utils.ts`: identity when `unit === 0`, otherwise
Fahrenheit to Celsius rounded to the nearest 0.5 degree,
`Math.round((5 / 9) * (value - 32) * 2) / 2`. -/
def toCelsius (value : ℚ) (unit : ℚ) : ℚ :=
  if unit = 0 then value
  else (jsRound ((5/9) * (value - 32) * 2) : ℚ) / 2

/-- `toFahrenheit` from `src/utils.ts`: identity when `unit === 0`,
otherwise `Math.round((value * 9) / 5 + 32)`. -/
def toFahrenheit (value : ℚ) (unit : ℚ) : ℚ :=
  if unit = 0 then value
  else (jsRound (value * 9 / 5 + 32) : ℚ)

/-- `convertUnits` from `src/utils.ts`.  The `convert` argument is optional
in the source (`convert?: string`), hence `Option String` here. -/
def convertUnits (value : ℚ) (unit : String) (convert : Option String) : ℚ :=
  if unit = "CELSIUS" ∧ convert = some "CELSIUS" then
    (jsRound (value * 9 / 5 + 32) : ℚ)
  else if unit = "FAHRENHEIT" ∧ convert = some "FAHRENHEIT" then
    (jsRound ((5/9) * (value - 32) * 2) : ℚ) / 2
  else value

/-- The numeric enum `HomeKitModes` of `src/utils.ts`, viewed as the
JavaScript member access `HomeKitModes[key]`: the four declared keys map to
their numeric values, any other key yields `undefined` (`none`). -/
def HomeKitModes : String → Option ℤ
  | "Off" => some 0
  | "Heat" => some 1
  | "Cool" => some 2
  | "Auto" => some 3
  | _ => none

/-- The string enum `ResideoModes` of `src/utils.ts`, viewed as the
JavaScript member access `ResideoModes[key]`: the four declared keys map to
themselves, any other key yields `undefined` (`none`).  TypeScript string
enums have no reverse numeric mapping, so only the literal keys exist. -/
def ResideoModes : String → Option String
  | "Off" => some "Off"
  | "Heat" => some "Heat"
  | "Cool" => some "Cool"
  | "Auto" => some "Auto"
  | _ => none

/-- `Thermostats.ResideoMode` of `src/devices/thermostats.ts`: the switch on
`this.Thermostat.TargetHeatingCoolingState` (a value that may be
`undefined`, hence `Option ℤ`) used to build `payload.mode`.  The source
looks up `ResideoModes[HEAT_KEY]` with key `Heat`, but uses the keys
`COOL`, `AUTO` and `OFF` (upper case) for the other three cases; those keys
do not exist in the enum, so at runtime those member accesses evaluate to
`undefined` (`none`).  The default branch assigns the literal `Unknown`. -/
def Thermostats.ResideoMode (targetHeatingCoolingState : Option ℤ) : Option String :=
  if targetHeatingCoolingState = some 1 then ResideoModes "Heat"
  else if targetHeatingCoolingState = some 2 then ResideoModes "COOL"
  else if targetHeatingCoolingState = some 3 then ResideoModes "AUTO"
  else if targetHeatingCoolingState = some 0 then ResideoModes "OFF"
  else some "Unknown"

/-! ## Thermostat adapter model (`src/devices/thermostats.ts`) -/

/-- The `changeableValues` sub-object of a Resideo thermostat device. -/
structure ChangeableValues where
  mode : String
  heatSetpoint : ℚ
  coolSetpoint : ℚ
  autoChangeoverActive : Bool
deriving DecidableEq, Repr

/-- The fields of `device : resideoDevice & devicesConfig` that the
thermostat adapter reads on the push/refresh/apiError paths.  The `Bool`
fields model the JavaScript truthiness of the corresponding optional
config/device fields (`device.retry`, `device.thermostat?.hide_humidity`,
`device.indoorHumidity`, `device.thermostat?.hide_fan`,
`device.settings?.fan`). -/
structure ResideoDeviceInfo where
  deviceModel : String
  units : String
  changeableValues : ChangeableValues
  retry : Bool
  hide_humidity : Bool
  indoorHumidity : Bool
  hide_fan : Bool
  settingsFan : Bool
deriving DecidableEq, Repr

/-- The thermostat Device Mirror: the `this.Thermostat` record of the
adapter.  `TargetHeatingCoolingState` is `Option ℤ` because `parseStatus`
assigns `HomeKitModes[mode]`, which is `undefined` for unknown mode
strings. -/
structure ThermostatMirror where
  TargetTemperature : ℚ
  CurrentTemperature : ℚ
  TemperatureDisplayUnits : ℚ
  TargetHeatingCoolingState : Option ℤ
  CurrentHeatingCoolingState : ℤ
  CoolingThresholdTemperature : ℚ
  HeatingThresholdTemperature : ℚ
deriving DecidableEq, Repr

/-- The four characteristic setter handlers of the thermostat adapter that
feed the `doThermostatUpdate` debounce stream. -/
inductive SetterCall where
  | setTargetTemperature (value : ℚ)
  | setHeatingThresholdTemperature (value : ℚ)
  | setCoolingThresholdTemperature (value : ℚ)
  | setTargetHeatingCoolingState (value : ℤ)
deriving DecidableEq, Repr

/-- The mirror mutation performed by each setter handler.
`setTargetHeatingCoolingState` additionally recomputes
`TargetTemperature` from the stored device setpoints, exactly as in the
source: heat setpoint when the new state is HEAT, cool setpoint
otherwise. -/
def applySetter (device : ResideoDeviceInfo) (m : ThermostatMirror) :
    SetterCall → ThermostatMirror
  | .setTargetTemperature v => { m with TargetTemperature := v }
  | .setHeatingThresholdTemperature v => { m with HeatingThresholdTemperature := v }
  | .setCoolingThresholdTemperature v => { m with CoolingThresholdTemperature := v }
  | .setTargetHeatingCoolingState v =>
      { m with
        TargetHeatingCoolingState := some v,
        TargetTemperature :=
          if v = 1 then
            toCelsius device.changeableValues.heatSetpoint m.TemperatureDisplayUnits
          else
            toCelsius device.changeableValues.coolSetpoint m.TemperatureDisplayUnits }

/-- Whether a setter handler emits `doThermostatUpdate.next()`.  The three
temperature setters always emit; `setTargetHeatingCoolingState` emits only
when the newly assigned state differs from `HomeKitModes[mode]` of the
stored device (`!==` in the source). -/
def emitsThermostatUpdate (device : ResideoDeviceInfo) : SetterCall → Bool
  | .setTargetTemperature _ => true
  | .setHeatingThresholdTemperature _ => true
  | .setCoolingThresholdTemperature _ => true
  | .setTargetHeatingCoolingState v =>
      decide (some v ≠ HomeKitModes device.changeableValues.mode)

/-- The JSON body assembled by `Thermostats.pushChanges`.  Outer `Option` =
the property was assigned at all; for `mode` the inner `Option` records
that the assigned value itself may be `undefined` (see
`Thermostats.ResideoMode`). -/
structure ThermostatPayload where
  mode : Option (Option String) := none
  thermostatSetpointStatus : Option String := none
  autoChangeoverActive : Option Bool := none
  thermostatSetpoint : Option ℚ := none
  unit : Option String := none
  heatSetpoint : Option ℚ := none
  coolSetpoint : Option ℚ := none
deriving DecidableEq, Repr

/-- The payload construction of `Thermostats.pushChanges`, switch by switch:
`mode` (skipped for model `Unknown`), `thermostatSetpointStatus` (skipped
for model `Round`; defaults to `PermanentHold` when not configured, as in
`pushChangesthermostatSetpointStatus`), `autoChangeoverActive`
(model-dependent), and the setpoints (a single `thermostatSetpoint` plus
`unit` for model `Unknown`; otherwise both `heatSetpoint` and
`coolSetpoint`, assigned according to the target state). -/
def buildPushPayload (device : ResideoDeviceInfo)
    (thermostatSetpointStatus : Option String) (m : ThermostatMirror) :
    ThermostatPayload :=
  let p0 : ThermostatPayload := {}
  let p1 :=
    if device.deviceModel = "Unknown" then p0
    else { p0 with mode := some (Thermostats.ResideoMode m.TargetHeatingCoolingState) }
  let p2 :=
    if device.deviceModel = "Round" then p1
    else { p1 with
           thermostatSetpointStatus :=
             some (thermostatSetpointStatus.getD "PermanentHold") }
  let p3 :=
    if device.deviceModel = "Round" ∨ device.deviceModel = "D6" then
      { p2 with
        autoChangeoverActive :=
          some (if m.TargetHeatingCoolingState = some 3 then true
                else device.changeableValues.autoChangeoverActive) }
    else if device.deviceModel = "Unknown" then p2
    else { p2 with autoChangeoverActive := some device.changeableValues.autoChangeoverActive }
  if device.deviceModel = "Unknown" then
    { p3 with
      thermostatSetpoint :=
        some (toFahrenheit m.TargetTemperature m.TemperatureDisplayUnits),
      unit :=
        if device.units = "Fahrenheit" then some "Fahrenheit"
        else if device.units = "Celsius" then some "Celsius"
        else none }
  else if m.TargetHeatingCoolingState = some 1 then
    { p3 with
      heatSetpoint := some (toFahrenheit m.TargetTemperature m.TemperatureDisplayUnits),
      coolSetpoint :=
        some (toFahrenheit m.CoolingThresholdTemperature m.TemperatureDisplayUnits) }
  else if m.TargetHeatingCoolingState = some 2 then
    { p3 with
      coolSetpoint := some (toFahrenheit m.TargetTemperature m.TemperatureDisplayUnits),
      heatSetpoint :=
        some (toFahrenheit m.HeatingThresholdTemperature m.TemperatureDisplayUnits) }
  else
    { p3 with
      coolSetpoint :=
        some (toFahrenheit m.CoolingThresholdTemperature m.TemperatureDisplayUnits),
      heatSetpoint :=
        some (toFahrenheit m.HeatingThresholdTemperature m.TemperatureDisplayUnits) }

/-! ## Debounced push coalescing

`doThermostatUpdate.pipe(debounceTime(this.deviceUpdateRate * 1000))`:
every emitted signal re-arms a timer of one debounce window `w` (the
device push rate, in the same time unit as the event timestamps); when the
timer expires without a newer signal, the subscriber runs `pushChanges`,
which rebuilds the payload from the mirror as it is at that moment. -/

/-- A characteristic setter invocation at a point in time. -/
structure TimedCall where
  time : ℚ
  call : SetterCall
deriving DecidableEq, Repr

/-- State of the debounced stream: the adapter mirror, the deadline of the
currently armed debounce timer (if any), and the pushes fired so far, each
recorded as the payload that `pushChanges` built from the mirror at its
fire time. -/
structure DebounceState where
  mirror : ThermostatMirror
  pendingDeadline : Option ℚ
  pushes : List ThermostatPayload
deriving DecidableEq, Repr

/-- Processing one timed setter call: first, if the armed debounce timer
expired strictly before this call, the pending push fires (building its
payload from the mirror at fire time); then the setter mutates the mirror,
and re-arms the timer iff the setter emits on `doThermostatUpdate`. -/
def debounceStep (device : ResideoDeviceInfo) (tss : Option String) (w : ℚ)
    (s : DebounceState) (e : TimedCall) : DebounceState :=
  let s1 : DebounceState :=
    match s.pendingDeadline with
    | some d =>
        if d < e.time then
          { s with
            pendingDeadline := none,
            pushes := s.pushes ++ [buildPushPayload device tss s.mirror] }
        else s
    | none => s
  { mirror := applySetter device s1.mirror e.call,
    pendingDeadline :=
      if emitsThermostatUpdate device e.call then some (e.time + w)
      else s1.pendingDeadline,
    pushes := s1.pushes }

/-- A whole session: process the timed setter calls in order, then let any
still-armed debounce timer fire.  The result is the list of `pushChanges`
payloads, in firing order. -/
def runThermostatSession (device : ResideoDeviceInfo) (tss : Option String)
    (w : ℚ) (m₀ : ThermostatMirror) (events : List TimedCall) :
    List ThermostatPayload :=
  let s := events.foldl (debounceStep device tss w) ⟨m₀, none, []⟩
  s.pushes ++
    match s.pendingDeadline with
    | some _ => [buildPushPayload device tss s.mirror]
    | none => []

/-- The mirror after all setter calls have been applied in order. -/
def finalMirror (device : ResideoDeviceInfo) (m₀ : ThermostatMirror)
    (events : List TimedCall) : ThermostatMirror :=
  events.foldl (fun m e => applySetter device m e.call) m₀

/-! ## Error handling and retry (thermostat refreshStatus / pushChanges) -/

/-- The host-visible characteristics exposed by a thermostat accessory. -/
inductive ThermostatCharacteristic where
  | TemperatureDisplayUnits
  | CurrentTemperature
  | TargetTemperature
  | HeatingThresholdTemperature
  | CoolingThresholdTemperature
  | TargetHeatingCoolingState
  | CurrentHeatingCoolingState
  | CurrentRelativeHumidity
  | TargetFanState
  | FanActive
  | ProgrammableSwitchEvent
  | ProgrammableSwitchOutputState
deriving DecidableEq, Repr

/-- The characteristics that `Thermostats.apiError` writes the error value
to: the seven thermostat-service characteristics, plus the humidity
characteristic when the humidity sensor is shown, plus the two fan
characteristics when the fan service is shown. -/
def apiErrorCharacteristics (device : ResideoDeviceInfo) :
    List ThermostatCharacteristic :=
  [.TemperatureDisplayUnits, .CurrentTemperature, .TargetTemperature,
   .HeatingThresholdTemperature, .CoolingThresholdTemperature,
   .TargetHeatingCoolingState, .CurrentHeatingCoolingState]
  ++ (if ¬device.hide_humidity ∧ device.indoorHumidity
      then [.CurrentRelativeHumidity] else [])
  ++ (if ¬device.hide_fan ∧ device.settingsFan
      then [.TargetFanState, .FanActive] else [])

/-- The characteristics the thermostat adapter constructor registers on the
accessory (host-visible surface): the seven thermostat-service
characteristics, conditionally humidity and fan, and always the two
StatefulProgrammableSwitch characteristics. -/
def thermostatVisibleCharacteristics (device : ResideoDeviceInfo) :
    List ThermostatCharacteristic :=
  [.TemperatureDisplayUnits, .CurrentTemperature, .TargetTemperature,
   .HeatingThresholdTemperature, .CoolingThresholdTemperature,
   .TargetHeatingCoolingState, .CurrentHeatingCoolingState]
  ++ (if ¬device.hide_humidity ∧ device.indoorHumidity
      then [.CurrentRelativeHumidity] else [])
  ++ (if ¬device.hide_fan ∧ device.settingsFan
      then [.TargetFanState, .FanActive] else [])
  ++ [.ProgrammableSwitchEvent, .ProgrammableSwitchOutputState]

/-- Reified side effects of the thermostat adapter methods. -/
inductive ThermostatEffect where
  | apiRequest (p : ThermostatPayload)
  | updateHomeKit
  | scheduleRetry (action : String) (delayMs : ℚ)
  | logResideoAPIError (action : String)
  | markCharacteristicsWithError (chars : List ThermostatCharacteristic)
deriving DecidableEq, Repr

/-- The raw device JSON consumed by `Thermostats.parseStatus` (the fields
it reads). -/
structure RawThermostatStatus where
  units : String
  indoorTemperature : ℚ
  changeableValues : ChangeableValues
  operationStatusMode : String
deriving DecidableEq, Repr

/-- `Thermostats.parseStatus`, restricted to the `this.Thermostat` mirror
(the fan, humidity and room-priority sub-states are not needed by the
claims).  Quirks preserved from the source: the heat threshold and the
HEAT-mode target temperature are converted from the setpoints of the
STORED device (`this.device`), while the guards and the cool threshold use
the freshly fetched payload; `TargetHeatingCoolingState` is assigned
`HomeKitModes[mode]`, which may be `undefined`. -/
def parseStatus (storedDevice : ResideoDeviceInfo) (m : ThermostatMirror)
    (raw : RawThermostatStatus) : ThermostatMirror :=
  let units1 : ℚ :=
    if raw.units = "Fahrenheit" then 1
    else if raw.units = "Celsius" then 0
    else m.TemperatureDisplayUnits
  let m1 := { m with TemperatureDisplayUnits := units1 }
  let m2 := { m1 with CurrentTemperature := toCelsius raw.indoorTemperature units1 }
  let m3 :=
    if raw.changeableValues.heatSetpoint > 0 then
      { m2 with
        HeatingThresholdTemperature :=
          toCelsius storedDevice.changeableValues.heatSetpoint units1 }
    else m2
  let m4 :=
    if raw.changeableValues.coolSetpoint > 0 then
      { m3 with
        CoolingThresholdTemperature :=
          toCelsius raw.changeableValues.coolSetpoint units1 }
    else m3
  let m5 := { m4 with TargetHeatingCoolingState := HomeKitModes raw.changeableValues.mode }
  let m6 :=
    { m5 with
      CurrentHeatingCoolingState :=
        if raw.operationStatusMode = "Heat" then 1
        else if raw.operationStatusMode = "Cool" then 2
        else 0 }
  if m6.TargetHeatingCoolingState = some 1 then
    if raw.changeableValues.heatSetpoint > 0 then
      { m6 with
        TargetTemperature :=
          toCelsius storedDevice.changeableValues.heatSetpoint units1 }
    else m6
  else
    if raw.changeableValues.coolSetpoint > 0 then
      { m6 with
        TargetTemperature :=
          toCelsius storedDevice.changeableValues.coolSetpoint units1 }
    else m6

/-- `Thermostats.refreshStatus`: awaits the device, fan and room-priority
fetches inside one `try`, then parses.  Any rejection lands in the local
`catch`, which (a) schedules a single retry after 5000 ms when the
device-level retry flag is set, (b) logs through `resideoAPIError`, and
(c) writes the error to the characteristics via `apiError`.  The result
type is `Except` so that "the method itself never rejects" is a statable
property: the method body maps every input to `.ok`. -/
def refreshStatusThermostat (device : ResideoDeviceInfo) (m : ThermostatMirror)
    (fetchDevice : Except String RawThermostatStatus)
    (fetchFan fetchRoom : Except String Unit) :
    Except String (ThermostatMirror × List ThermostatEffect) :=
  match fetchDevice, fetchFan, fetchRoom with
  | .ok raw, .ok _, .ok _ => .ok (parseStatus device m raw, [])
  | _, _, _ =>
      .ok (m,
        (if device.retry then [ThermostatEffect.scheduleRetry "refreshStatus" 5000] else [])
        ++ [ThermostatEffect.logResideoAPIError "refreshStatus",
            ThermostatEffect.markCharacteristicsWithError (apiErrorCharacteristics device)])

/-- `Thermostats.pushChanges`: builds the full payload from the current
mirror, issues the write, and on success re-publishes the mirror to
HomeKit.  On rejection the local `catch` (a) schedules exactly one retry
after 5000 ms when the device-level retry flag is set, (b) logs through
`resideoAPIError`, and (c) writes the error to the characteristics via
`apiError`; the mirror itself is left untouched. -/
def pushChangesThermostat (device : ResideoDeviceInfo) (tss : Option String)
    (m : ThermostatMirror) (requestResult : Except String Unit) :
    Except String (ThermostatMirror × List ThermostatEffect) :=
  let p := buildPushPayload device tss m
  match requestResult with
  | .ok _ => .ok (m, [.apiRequest p, .updateHomeKit])
  | .error _ =>
      .ok (m,
        [ThermostatEffect.apiRequest p]
        ++ (if device.retry then [ThermostatEffect.scheduleRetry "pushChanges" 5000] else [])
        ++ [ThermostatEffect.logResideoAPIError "pushChanges",
            ThermostatEffect.markCharacteristicsWithError (apiErrorCharacteristics device)])

/-! ## Valve adapter model (`src/devices/valve.ts`) -/

/-- The host-visible characteristics of the Valve service (`Active` has a
set handler, `InUse` a get handler). -/
inductive ValveCharacteristic where
  | Active
  | InUse
deriving DecidableEq, Repr

/-- Characteristics registered on the valve accessory. -/
def valveVisibleCharacteristics : List ValveCharacteristic :=
  [.Active, .InUse]

/-- The characteristics `Valve.apiError` writes the error value to: only
`Active`. -/
def valveApiErrorCharacteristics : List ValveCharacteristic :=
  [.Active]

/-- Reified side effects of the valve adapter methods. -/
inductive ValveEffect where
  | apiRequest (state : String)
  | updateHomeKit
  | scheduleRetry (action : String) (delayMs : ℚ)
  | logResideoAPIError (action : String)
  | logError
  | markCharacteristicsWithError (chars : List ValveCharacteristic)
deriving DecidableEq, Repr

/-- The valve mirror (`this.Valve`): `Active` and `InUse`, both HomeKit
numeric values. -/
structure ValveMirror where
  Active : ℤ
  InUse : ℤ
deriving DecidableEq, Repr

/-- The raw valve JSON consumed by `Valve.parseStatus`. -/
structure RawValveStatus where
  isAlive : Bool
  valveStatus : String
deriving DecidableEq, Repr

/-- `Valve.parseStatus`: `Active` from `isAlive`, `InUse` from
`actuatorValve.valveStatus === Open`. -/
def parseStatusValve (raw : RawValveStatus) : ValveMirror :=
  { Active := if raw.isAlive then 1 else 0,
    InUse := if raw.valveStatus = "Open" then 1 else 0 }

/-- `Valve.refreshStatus`: fetch and parse inside `try`; the local `catch`
schedules one retry after 5000 ms when the retry flag is set, logs through
`resideoAPIError` and calls `apiError`, which writes the error value only
to the `Active` characteristic. -/
def refreshStatusValve (retry : Bool) (m : ValveMirror)
    (fetch : Except String RawValveStatus) :
    Except String (ValveMirror × List ValveEffect) :=
  match fetch with
  | .ok raw => .ok (parseStatusValve raw, [ValveEffect.updateHomeKit])
  | .error _ =>
      .ok (m,
        (if retry then [ValveEffect.scheduleRetry "refreshStatus" 5000] else [])
        ++ [ValveEffect.logResideoAPIError "refreshStatus",
            ValveEffect.markCharacteristicsWithError valveApiErrorCharacteristics])

/-- `Valve.pushChanges`: sends `state: open` when the mirror `Active` is
ACTIVE, else `state: closed`; the local `catch` only logs (no retry, no
characteristic marker). -/
def pushChangesValve (m : ValveMirror) (requestResult : Except String Unit) :
    Except String (ValveMirror × List ValveEffect) :=
  let state := if m.Active = 1 then "open" else "closed"
  match requestResult with
  | .ok _ => .ok (m, [ValveEffect.apiRequest state])
  | .error _ =>
      .ok (m, [ValveEffect.apiRequest state,
               ValveEffect.logResideoAPIError "pushChanges", ValveEffect.logError])

/-! ## Platform coordinator model (`src/platform.ts`) -/

/-- A room-sensor accessory inside a room of the group rooms response
(the fields `normalizeSensorDate` touches). -/
structure SensorRoomAccessory where
  accessoryId : ℕ
  roomId : ℕ
  accessoryType : String
deriving DecidableEq, Repr

/-- A room of the `/group/:id/rooms` response. -/
structure SensorRoom where
  id : ℕ
  accessories : List SensorRoomAccessory
deriving DecidableEq, Repr

/-- `ResideoPlatform.normalizeSensorDate`: indexes accessories by room id
and accessory id (JavaScript sparse arrays become association lists) and
stamps each accessory with its room id. -/
def normalizeSensorDate (rooms : List SensorRoom) :
    List (ℕ × List (ℕ × SensorRoomAccessory)) :=
  rooms.map fun room =>
    (room.id,
     room.accessories.map fun sa => (sa.accessoryId, { sa with roomId := room.id }))

/-- One entry of `this.sensorData`: the expiry timestamp
(`Date.now() + 45000` at store time) and the normalized snapshot. -/
structure SensorCacheEntry where
  timestamp : ℚ
  data : List (ℕ × List (ℕ × SensorRoomAccessory))
deriving Repr

/-- `ResideoPlatform.getCurrentSensorData`, as a state transformer over the
per-device-id cache.  `now` is `Date.now()` (milliseconds) and `fetched`
the rooms the network request would return.  The returned `Bool` records
whether a network fetch was issued.  Source condition: fetch iff there is
no entry for the device id or the stored expiry timestamp is strictly less
than `now`; on fetch, the normalized result is stored with expiry
`now + 45000`. -/
def getCurrentSensorData (cache : String → Option SensorCacheEntry)
    (deviceID : String) (now : ℚ) (fetched : List SensorRoom) :
    (List (ℕ × List (ℕ × SensorRoomAccessory)))
      × (String → Option SensorCacheEntry) × Bool :=
  match cache deviceID with
  | some entry =>
      if entry.timestamp < now then
        let newEntry : SensorCacheEntry := ⟨now + 45000, normalizeSensorDate fetched⟩
        (newEntry.data, Function.update cache deviceID (some newEntry), true)
      else
        (entry.data, cache, false)
  | none =>
      let newEntry : SensorCacheEntry := ⟨now + 45000, normalizeSensorDate fetched⟩
      (newEntry.data, Function.update cache deviceID (some newEntry), true)

/-- The device flags `ResideoPlatform.registerDevice` reads.
`hide_roomsensor` models the truthiness of
`device.thermostat?.roomsensor?.hide_roomsensor`,
`roompriority_deviceType` the value of
`device.thermostat?.roompriority?.deviceType`, and `hide_device` the
truthiness of `device.hide_device` in the merged per-device config. -/
structure RegisterDeviceFlags where
  hide_roomsensor : Bool
  roompriority_deviceType : Option String
  hide_device : Bool
deriving DecidableEq, Repr

/-- `ResideoPlatform.registerDevice`: the if/else-if cascade from the
source, in order — not hiding the room sensor wins first, then a set
room-priority device type, then not hiding the device; only when all three
fail is the device not registered. -/
def registerDevice (d : RegisterDeviceFlags) : Bool :=
  if ¬d.hide_roomsensor then true
  else if d.roompriority_deviceType.isSome then true
  else if ¬d.hide_device then true
  else false

/-! ## Token lifecycle (`src/platform.ts`) -/

/-- `PLATFORM_NAME` from `src/settings.ts`. -/
def PLATFORM_NAME : String := "Resideo"

/-- The interval, in milliseconds, at which `refreshAccessToken` re-arms
`getAccessToken`: `(1800 / 3) * 1000` in the source. -/
def refreshAccessTokenIntervalMs : ℚ := (1800 / 3) * 1000

/-- The in-memory credential state (`this.config.credentials`). -/
structure Credentials where
  accessToken : Option String
  refreshToken : Option String
  consumerKey : Option String
  consumerSecret : Option String
deriving DecidableEq, Repr

/-- The ordered observable events of one `getAccessToken` run. -/
inductive TokenEvent where
  | warnRelink
  | setAccessTokenMem (tok : String)
  | persistRefreshTokenToConfigFile (tok : String)
  | setRefreshTokenMem (tok : String)
  | logApiError (action : String)
deriving DecidableEq, Repr

/-- The token endpoint response body. -/
structure TokenResponse where
  access_token : String
  refresh_token : String
deriving DecidableEq, Repr

/-- `ResideoPlatform.getAccessToken`.  Without a consumer secret the source
only warns, then dereferences the undefined `result` — a TypeError caught
by the local catch (`apiError`), leaving the credentials unchanged.  With
a secret and a successful response it stores the access token in memory,
persists the refresh token to the host config file via
`updateRefreshToken` when it differs from the stored one (`!==`), and only
then replaces the in-memory refresh token. -/
def getAccessToken (creds : Credentials) (resp : Except String TokenResponse) :
    Credentials × List TokenEvent :=
  match creds.consumerSecret with
  | none => (creds, [.warnRelink, .logApiError "refresh access token"])
  | some _ =>
      match resp with
      | .error _ => (creds, [.logApiError "refresh access token"])
      | .ok r =>
          ({ creds with
             accessToken := some r.access_token,
             refreshToken := some r.refresh_token },
           [TokenEvent.setAccessTokenMem r.access_token]
           ++ (if some r.refresh_token ≠ creds.refreshToken
               then [TokenEvent.persistRefreshTokenToConfigFile r.refresh_token]
               else [])
           ++ [TokenEvent.setRefreshTokenMem r.refresh_token])

/-- One entry of the `platforms` array of the host `config.json`.
`credentials = none` models a platform entry without a credentials object;
`credentials = some tokOpt` one with a credentials object whose
`refreshToken` is `tokOpt`. -/
structure FilePlatformEntry where
  platform : String
  credentials : Option (Option String)
deriving DecidableEq, Repr

/-- Helper for `updateRefreshToken`: the source mutates the FIRST entry
found for `PLATFORM_NAME` and rewrites the whole file. -/
def writeRefreshTokenFirstMatch (newTok : String) :
    List FilePlatformEntry → List FilePlatformEntry
  | [] => []
  | p :: rest =>
      if p.platform = PLATFORM_NAME then
        { p with credentials := some (some newTok) } :: rest
      else p :: writeRefreshTokenFirstMatch newTok rest

/-- `ResideoPlatform.updateRefreshToken`: validates the new token and the
shape of the host config file, then writes the refresh token into the
plugin entry of the `platforms` array and saves the file.  Its own catch
only logs, so the `Except.error` results stand for the internally caught
failure paths (in which nothing is written). -/
def updateRefreshToken (newTok : Option String)
    (platforms : Option (List FilePlatformEntry)) :
    Except String (List FilePlatformEntry) :=
  match newTok with
  | none => .error "New token not provided"
  | some tok =>
      match platforms with
      | none => .error "Cannot find platforms array in config"
      | some ps =>
          match ps.find? (fun p => p.platform = PLATFORM_NAME) with
          | none => .error "Cannot find config for platform in platforms array"
          | some entry =>
              match entry.credentials with
              | none => .error "pluginConfig.credentials is not an object"
              | some _ => .ok (writeRefreshTokenFirstMatch tok ps)

/-! ## Config verification (`src/platform.ts` verifyConfig) -/

/-- One entry of `options.devices` in the platform config, with the fields
`verifyConfig` checks.  `Option` models absent (falsy) fields. -/
structure DeviceConfigEntry where
  deviceID : Option String
  deviceClass : Option String
  hide_device : Bool
deriving DecidableEq, Repr

/-- The `options` object of the platform config. -/
structure PlatformOptions where
  refreshRate : Option ℚ
  pushRate : Option ℚ
  devices : Option (List DeviceConfigEntry)
  logging : Option String
deriving DecidableEq, Repr

/-- The `credentials` object of the platform config. -/
structure PlatformCredentials where
  consumerKey : Option String
  consumerSecret : Option String
  refreshToken : Option String
  accessToken : Option String
deriving DecidableEq, Repr

/-- The platform config as passed to `verifyConfig`. -/
structure PlatformConfig where
  options : Option PlatformOptions
  credentials : Option PlatformCredentials
deriving DecidableEq, Repr

/-- The empty object `{}` that `verifyConfig` substitutes for a missing
`options` section. -/
def emptyOptions : PlatformOptions := ⟨none, none, none, none⟩

/-- The empty object `{}` that `verifyConfig` substitutes for a missing
`credentials` section. -/
def emptyCredentials : PlatformCredentials := ⟨none, none, none, none⟩

/-- The per-entry loop of `verifyConfig` over `options.devices`: a missing
device class on a non-hidden entry throws first, then a missing device
id. -/
def checkDeviceEntries : List DeviceConfigEntry → Except String Unit
  | [] => .ok ()
  | d :: rest =>
      if ¬d.hide_device ∧ d.deviceClass = none then
        .error "The devices config section is missing the Device Type in the config, Check Your Conifg."
      else if d.deviceID = none then
        .error "The devices config section is missing the Device ID in the config, Check Your Conifg."
      else checkDeviceEntries rest

/-- JavaScript truthiness of an optional number (`undefined` and `0` are
falsy). -/
def truthyNum (x : Option ℚ) : Bool :=
  match x with
  | some r => decide (r ≠ 0)
  | none => false

/-- `ResideoPlatform.verifyConfig`, in source order: default the `options`
and `credentials` sections to `{}`; check every configured device entry;
throw when `refreshRate < 30` (false in JavaScript when `refreshRate` is
undefined); default a falsy `refreshRate` to `120` and a falsy `pushRate`
to `0.1`; finally require `consumerKey` and `refreshToken`.  The `.ok`
result is the mutated config. -/
def verifyConfig (c : PlatformConfig) : Except String PlatformConfig :=
  let opts := c.options.getD emptyOptions
  let creds := c.credentials.getD emptyCredentials
  match (match opts.devices with
         | some ds => checkDeviceEntries ds
         | none => Except.ok ()) with
  | .error e => .error e
  | .ok _ =>
      if (match opts.refreshRate with
          | some r => decide (r < 30)
          | none => false) then
        .error "Refresh Rate must be above 30 seconds."
      else
        let opts1 :=
          if truthyNum opts.refreshRate then opts
          else { opts with refreshRate := some 120 }
        let opts2 :=
          if truthyNum opts1.pushRate then opts1
          else { opts1 with pushRate := some (1/10) }
        if creds.consumerKey = none then .error "Missing consumerKey"
        else if creds.refreshToken = none then .error "Missing refreshToken"
        else .ok { options := some opts2, credentials := some creds }

/-! ## Evaluation helpers -/

/-- Evaluation helper: `jsRound x = n` whenever `n ≤ x + 1/2 < n + 1`. -/
theorem jsRound_eq (x : ℚ) (n : ℤ) (h1 : (n : ℚ) ≤ x + 1/2)
    (h2 : x + 1/2 < (n : ℚ) + 1) : jsRound x = n := by
  unfold jsRound
  rw [Int.floor_eq_iff]
  exact ⟨h1, h2⟩

/-- `toCelsius 32 1 = 0`. -/
theorem toCelsius_32 : toCelsius 32 1 = 0 := by
  have h : jsRound ((5/9) * ((32:ℚ) - 32) * 2) = 0 :=
    jsRound_eq _ 0 (by norm_num) (by norm_num)
  rw [toCelsius, if_neg (show ¬(1:ℚ) = 0 by norm_num), h]
  norm_num

/-- `toCelsius 68 1 = 20`. -/
theorem toCelsius_68 : toCelsius 68 1 = 20 := by
  have h : jsRound ((5/9) * ((68:ℚ) - 32) * 2) = 40 :=
    jsRound_eq _ 40 (by norm_num) (by norm_num)
  rw [toCelsius, if_neg (show ¬(1:ℚ) = 0 by norm_num), h]
  norm_num

/-- `toCelsius 100 1 = 38`: the exact conversion is `340/9 ≈ 37.78`, and the
nearest half degree is `38`. -/
theorem toCelsius_100 : toCelsius 100 1 = 38 := by
  have h : jsRound ((5/9) * ((100:ℚ) - 32) * 2) = 76 :=
    jsRound_eq _ 76 (by norm_num) (by norm_num)
  rw [toCelsius, if_neg (show ¬(1:ℚ) = 0 by norm_num), h]
  norm_num

/-- `toFahrenheit 0 1 = 32`. -/
theorem toFahrenheit_0 : toFahrenheit 0 1 = 32 := by
  have h : jsRound ((0:ℚ) * 9 / 5 + 32) = 32 :=
    jsRound_eq _ 32 (by norm_num) (by norm_num)
  rw [toFahrenheit, if_neg (show ¬(1:ℚ) = 0 by norm_num), h]
  norm_num

/-- `toFahrenheit 20 1 = 68`. -/
theorem toFahrenheit_20 : toFahrenheit 20 1 = 68 := by
  have h : jsRound ((20:ℚ) * 9 / 5 + 32) = 68 :=
    jsRound_eq _ 68 (by norm_num) (by norm_num)
  rw [toFahrenheit, if_neg (show ¬(1:ℚ) = 0 by norm_num), h]
  norm_num

/-- `toFahrenheit 38 1 = 100`. -/
theorem toFahrenheit_38 : toFahrenheit 38 1 = 100 := by
  have h : jsRound ((38:ℚ) * 9 / 5 + 32) = 100 :=
    jsRound_eq _ 100 (by norm_num) (by norm_num)
  rw [toFahrenheit, if_neg (show ¬(1:ℚ) = 0 by norm_num), h]
  norm_num

/-! ## Claim C3 -/

/-- C3 counterexample: the claim says `toCelsius 100 1 = 37.5`, but the
code rounds `37.78` to the NEAREST half degree, which is `38`, not
`37.5`.  (The repository test `utils.test.ts` also expects `37.5` and
therefore fails against the code; `38` is what the documented
nearest-half-degree rounding yields.) -/
theorem C3_counterexample : toCelsius 100 1 = 38 ∧ toCelsius 100 1 ≠ 75/2 := by
  refine ⟨toCelsius_100, ?_⟩
  rw [toCelsius_100]
  norm_num

/-- C3 (amended): for f in 32, 68, 100 the round trip
`toFahrenheit (toCelsius f 1) 1` is within `0.5` of `f`, with
`32 ↦ 0`, `68 ↦ 20` and `100 ↦ 38` (the nearest half degree to `37.78`,
not `37.5` as the claim stated); and unit `0` is the identity for both
conversions. -/
theorem C3_roundtrip :
    toCelsius 32 1 = 0 ∧ toCelsius 68 1 = 20 ∧ toCelsius 100 1 = 38 ∧
    |toFahrenheit (toCelsius 32 1) 1 - 32| ≤ 1/2 ∧
    |toFahrenheit (toCelsius 68 1) 1 - 68| ≤ 1/2 ∧
    |toFahrenheit (toCelsius 100 1) 1 - 100| ≤ 1/2 ∧
    (∀ v : ℚ, toCelsius v 0 = v) ∧ (∀ v : ℚ, toFahrenheit v 0 = v) := by
  refine ⟨toCelsius_32, toCelsius_68, toCelsius_100, ?_, ?_, ?_, ?_, ?_⟩
  · rw [toCelsius_32, toFahrenheit_0]; norm_num
  · rw [toCelsius_68, toFahrenheit_20]; norm_num
  · rw [toCelsius_100, toFahrenheit_38]; norm_num
  · intro v; simp [toCelsius]
  · intro v; simp [toFahrenheit]

/-! ## Claim C10 -/

/-- C10: `convertUnits` applies the Celsius-to-Fahrenheit rounding formula
exactly when both `unit` and `convert` are `CELSIUS`, the
Fahrenheit-to-Celsius nearest-half-degree formula exactly when both are
`FAHRENHEIT`, and is the identity for every other combination. -/
theorem C10_convertUnits :
    (∀ v : ℚ, convertUnits v "CELSIUS" (some "CELSIUS") = (jsRound (v * 9 / 5 + 32) : ℚ)) ∧
    (∀ v : ℚ,
      convertUnits v "FAHRENHEIT" (some "FAHRENHEIT")
        = (jsRound ((5/9) * (v - 32) * 2) : ℚ) / 2) ∧
    (∀ (v : ℚ) (unit : String) (convert : Option String),
      ¬(unit = "CELSIUS" ∧ convert = some "CELSIUS") →
      ¬(unit = "FAHRENHEIT" ∧ convert = some "FAHRENHEIT") →
      convertUnits v unit convert = v) := by
  refine ⟨fun v => ?_, fun v => ?_, fun v unit convert h1 h2 => ?_⟩
  · simp [convertUnits]
  · simp [convertUnits]
  · rw [convertUnits, if_neg h1, if_neg h2]

/-- C10 witness: a mismatched pair (`FAHRENHEIT` with convert `CELSIUS`)
returns the value unchanged. -/
theorem C10_convertUnits_witness :
    convertUnits 50 "FAHRENHEIT" (some "CELSIUS") = 50 :=
  C10_convertUnits.2.2 50 "FAHRENHEIT" (some "CELSIUS") (by simp) (by simp)

/-! ## Claim C2 -/

/-- C2: the forward table `HomeKitModes` does map the four vendor strings
to the four distinct host integers 0..3, but the reverse mapping used when
building a push payload, `Thermostats.ResideoMode`, looks up the enum with
the nonexistent keys `COOL`, `AUTO` and `OFF`, so for the host integers 2,
3 and 0 it produces `undefined` rather than the vendor mode string; only
`1 ↦ Heat` survives.  This contradicts the stated bijection (and the
declared `string` type of the variable in the source): the code is a
slip. -/
theorem C2_mode_mapping_bug :
    (HomeKitModes "Off" = some 0 ∧ HomeKitModes "Heat" = some 1 ∧
     HomeKitModes "Cool" = some 2 ∧ HomeKitModes "Auto" = some 3) ∧
    Thermostats.ResideoMode (some 1) = some "Heat" ∧
    Thermostats.ResideoMode (some 2) = none ∧
    Thermostats.ResideoMode (some 3) = none ∧
    Thermostats.ResideoMode (some 0) = none := by
  refine ⟨⟨rfl, rfl, rfl, rfl⟩, rfl, ?_, ?_, ?_⟩ <;> rfl

/-! ## Claim C5 -/

/-- C5 counterexample: a device whose merged config sets `hide_device` but
configures neither `thermostat.roomsensor.hide_roomsensor` nor a room
priority still registers, because the first branch of `registerDevice`
(`!hide_roomsensor`) wins.  So `registerDevice` does NOT return false for
every device with `hide_device` set. -/
theorem C5_counterexample :
    ¬ (∀ d : RegisterDeviceFlags, d.hide_device = true → registerDevice d = false) := by
  intro h
  have := h { hide_roomsensor := false, roompriority_deviceType := none,
              hide_device := true } rfl
  simp [registerDevice] at this

/-- C5 (amended): `registerDevice` returns false exactly when
`hide_roomsensor` is set AND no room-priority device type is configured
AND `hide_device` is set; in particular every device with `hide_device`
unset or false is registered. -/
theorem C5_registerDevice :
    (∀ d : RegisterDeviceFlags,
      registerDevice d = false ↔
        d.hide_roomsensor = true ∧ d.roompriority_deviceType = none ∧
          d.hide_device = true) ∧
    (∀ d : RegisterDeviceFlags, d.hide_device = false → registerDevice d = true) := by
  constructor
  · rintro ⟨hr, rp, hd⟩
    cases hr <;> cases hd <;> cases rp <;> simp [registerDevice]
  · rintro ⟨hr, rp, hd⟩ h
    cases hr <;> cases rp <;> simp_all [registerDevice]

/-- C5 witness: a visible device (nothing hidden, no room priority) is
registered. -/
theorem C5_registerDevice_witness :
    registerDevice { hide_roomsensor := true, roompriority_deviceType := none,
                     hide_device := false } = true :=
  C5_registerDevice.2
    { hide_roomsensor := true, roompriority_deviceType := none,
      hide_device := false } rfl

/-! ## Claim C4 -/

/-- C4: TTL behaviour of the shared sensor cache.
Part 1: a call while the entry for the device id is younger than 45
seconds (45000 ms) returns the cached snapshot, leaves the cache unchanged
and issues no fetch.  Part 2: a call more than 45 seconds after the entry
was stored fetches, and recaches the normalized result with expiry
`now + 45000`.  Part 3: starting cold, two calls within 45 seconds issue
exactly one fetch (the first fetches, the second is served from cache and
returns the same normalized snapshot). -/
theorem C4_sensor_cache :
    (∀ (cache : String → Option SensorCacheEntry) (id : String) (t₀ now : ℚ)
        (d : List (ℕ × List (ℕ × SensorRoomAccessory))) (f : List SensorRoom),
      cache id = some ⟨t₀ + 45000, d⟩ → now - t₀ < 45000 →
      getCurrentSensorData cache id now f = (d, cache, false)) ∧
    (∀ (cache : String → Option SensorCacheEntry) (id : String) (t₀ now : ℚ)
        (d : List (ℕ × List (ℕ × SensorRoomAccessory))) (f : List SensorRoom),
      cache id = some ⟨t₀ + 45000, d⟩ → now - t₀ > 45000 →
      getCurrentSensorData cache id now f =
        (normalizeSensorDate f,
         Function.update cache id (some ⟨now + 45000, normalizeSensorDate f⟩),
         true)) ∧
    (∀ (cache : String → Option SensorCacheEntry) (id : String) (now₁ now₂ : ℚ)
        (f₁ f₂ : List SensorRoom),
      cache id = none → now₂ - now₁ < 45000 →
      ((getCurrentSensorData cache id now₁ f₁).2.2 = true ∧
       (getCurrentSensorData
          (getCurrentSensorData cache id now₁ f₁).2.1 id now₂ f₂).2.2 = false ∧
       (getCurrentSensorData
          (getCurrentSensorData cache id now₁ f₁).2.1 id now₂ f₂).1 =
         (getCurrentSensorData cache id now₁ f₁).1)) := by
  refine ⟨?_, ?_, ?_⟩
  · intro cache id t₀ now d f hc hlt
    have hnot : ¬ ((⟨t₀ + 45000, d⟩ : SensorCacheEntry).timestamp < now) := by
      simp only [not_lt]
      linarith
    simp [getCurrentSensorData, hc, hnot]
  · intro cache id t₀ now d f hc hgt
    have hyes : (⟨t₀ + 45000, d⟩ : SensorCacheEntry).timestamp < now := by
      simp only
      linarith
    simp [getCurrentSensorData, hc, hyes]
  · intro cache id now₁ now₂ f₁ f₂ hc hwin
    have h₁ : getCurrentSensorData cache id now₁ f₁ =
        (normalizeSensorDate f₁,
         Function.update cache id (some ⟨now₁ + 45000, normalizeSensorDate f₁⟩),
         true) := by
      simp [getCurrentSensorData, hc]
    have hlook : (Function.update cache id
        (some (⟨now₁ + 45000, normalizeSensorDate f₁⟩ : SensorCacheEntry))) id =
        some ⟨now₁ + 45000, normalizeSensorDate f₁⟩ := by
      simp
    have hnot : ¬ ((⟨now₁ + 45000, normalizeSensorDate f₁⟩ : SensorCacheEntry).timestamp
        < now₂) := by
      simp only [not_lt]
      linarith
    rw [h₁]
    refine ⟨rfl, ?_, ?_⟩ <;> simp [getCurrentSensorData, hlook, hnot]

/-- C4 witness: cold cache, two calls 1000 ms apart, one fetch. -/
theorem C4_sensor_cache_witness :
    ((getCurrentSensorData (fun _ => none) "ABC123" 0 []).2.2 = true ∧
     (getCurrentSensorData
        (getCurrentSensorData (fun _ => none) "ABC123" 0 []).2.1
        "ABC123" 1000 []).2.2 = false ∧
     (getCurrentSensorData
        (getCurrentSensorData (fun _ => none) "ABC123" 0 []).2.1
        "ABC123" 1000 []).1 =
       (getCurrentSensorData (fun _ => none) "ABC123" 0 []).1) :=
  C4_sensor_cache.2.2 (fun _ => none) "ABC123" 0 1000 [] [] rfl (by norm_num)

/-! ## Claim C6 -/

/-- Recognizer for the scheduled-retry effect. -/
def isScheduleRetry : ThermostatEffect → Bool
  | .scheduleRetry _ _ => true
  | _ => false

/-- C6: when `pushChanges` fails, the mirror is returned unchanged; with
the device-level retry flag set, exactly one retry is scheduled, after the
fixed 5000 ms delay; without it, no retry is scheduled and the failure is
logged. -/
theorem C6_push_retry :
    ∀ (device : ResideoDeviceInfo) (tss : Option String) (m : ThermostatMirror)
      (errMsg : String),
      ∃ effs, pushChangesThermostat device tss m (.error errMsg) = .ok (m, effs) ∧
        (device.retry = true →
          (effs.filter isScheduleRetry).length = 1 ∧
          ThermostatEffect.scheduleRetry "pushChanges" 5000 ∈ effs) ∧
        (device.retry = false →
          (effs.filter isScheduleRetry).length = 0 ∧
          ThermostatEffect.logResideoAPIError "pushChanges" ∈ effs) := by
  intro device tss m errMsg
  refine ⟨_, rfl, ?_, ?_⟩ <;> intro h <;> simp [h, isScheduleRetry]

/-- C6 witness: with retry enabled, a failed push schedules exactly one
retry. -/
theorem C6_push_retry_witness :
    ∃ effs,
      pushChangesThermostat
        { deviceModel := "T5", units := "Fahrenheit",
          changeableValues :=
            { mode := "Heat", heatSetpoint := 70, coolSetpoint := 78,
              autoChangeoverActive := false },
          retry := true, hide_humidity := false, indoorHumidity := true,
          hide_fan := false, settingsFan := true }
        none
        { TargetTemperature := 20, CurrentTemperature := 20,
          TemperatureDisplayUnits := 0, TargetHeatingCoolingState := some 1,
          CurrentHeatingCoolingState := 0, CoolingThresholdTemperature := 25,
          HeatingThresholdTemperature := 18 }
        (.error "500")
        = .ok
          ({ TargetTemperature := 20, CurrentTemperature := 20,
             TemperatureDisplayUnits := 0, TargetHeatingCoolingState := some 1,
             CurrentHeatingCoolingState := 0, CoolingThresholdTemperature := 25,
             HeatingThresholdTemperature := 18 }, effs) ∧
        (effs.filter isScheduleRetry).length = 1 := by
  obtain ⟨effs, he, h1, _⟩ :=
    C6_push_retry
      { deviceModel := "T5", units := "Fahrenheit",
        changeableValues :=
          { mode := "Heat", heatSetpoint := 70, coolSetpoint := 78,
            autoChangeoverActive := false },
        retry := true, hide_humidity := false, indoorHumidity := true,
        hide_fan := false, settingsFan := true }
      none
      { TargetTemperature := 20, CurrentTemperature := 20,
        TemperatureDisplayUnits := 0, TargetHeatingCoolingState := some 1,
        CurrentHeatingCoolingState := 0, CoolingThresholdTemperature := 25,
        HeatingThresholdTemperature := 18 }
      "500"
  exact ⟨effs, he, (h1 rfl).1⟩

/-! ## Claim C8 -/

/-- Helper: when the platforms array contains an entry for the plugin,
`writeRefreshTokenFirstMatch` produces a list containing the plugin entry
with the new refresh token. -/
theorem writeRefreshTokenFirstMatch_mem (tok : String) :
    ∀ (ps : List FilePlatformEntry) (e : FilePlatformEntry),
      ps.find? (fun p => p.platform = PLATFORM_NAME) = some e →
      ∃ p ∈ writeRefreshTokenFirstMatch tok ps,
        p.platform = PLATFORM_NAME ∧ p.credentials = some (some tok) := by
  intro ps
  induction ps with
  | nil => intro e h; simp at h
  | cons p rest ih =>
      intro e h
      by_cases hp : p.platform = PLATFORM_NAME
      · exact ⟨{ p with credentials := some (some tok) },
          by simp [writeRefreshTokenFirstMatch, hp], hp, rfl⟩
      · have hp2 : (decide (p.platform = PLATFORM_NAME)) = false := by simp [hp]
        rw [List.find?_cons, hp2] at h
        obtain ⟨q, hq, hq2⟩ := ih e h
        exact ⟨q, by simp [writeRefreshTokenFirstMatch, hp, hq], hq2⟩

/-- C8: `refreshAccessToken` re-arms `getAccessToken` every
`(1800 / 3) * 1000` ms, i.e. every 600 seconds — one third of the 1800 s
token lifetime; and when the token response carries a refresh token that
differs from the stored one, `getAccessToken` first stores the access
token in memory, then persists the new refresh token to the host config
file, and only after that replaces the in-memory refresh token (the
persistence event strictly precedes the in-memory replacement in the
trace); `updateRefreshToken` itself, on success, rewrites the plugin entry
of the config file with the new token. -/
theorem C8_token_lifecycle :
    refreshAccessTokenIntervalMs = 600 * 1000 ∧ (600 : ℚ) = 1800 / 3 ∧
    (∀ (creds : Credentials) (s : String) (r : TokenResponse),
      creds.consumerSecret = some s →
      some r.refresh_token ≠ creds.refreshToken →
      (getAccessToken creds (.ok r)).2 =
        [TokenEvent.setAccessTokenMem r.access_token,
         TokenEvent.persistRefreshTokenToConfigFile r.refresh_token,
         TokenEvent.setRefreshTokenMem r.refresh_token] ∧
      (getAccessToken creds (.ok r)).1 =
        { creds with
          accessToken := some r.access_token,
          refreshToken := some r.refresh_token }) ∧
    (∀ (tok : String) (ps ps2 : List FilePlatformEntry),
      updateRefreshToken (some tok) (some ps) = .ok ps2 →
      ∃ p ∈ ps2, p.platform = PLATFORM_NAME ∧ p.credentials = some (some tok)) := by
  refine ⟨by norm_num [refreshAccessTokenIntervalMs], by norm_num, ?_, ?_⟩
  · intro creds s r hs hne
    rw [getAccessToken, hs]
    simp [hne]
  · intro tok ps ps2 h
    simp only [updateRefreshToken] at h
    cases hf : ps.find? (fun p => p.platform = PLATFORM_NAME) with
    | none => rw [hf] at h; simp at h
    | some entry =>
        rw [hf] at h
        cases hcred : entry.credentials with
        | none => simp [hcred] at h
        | some c =>
            simp only [hcred, Except.ok.injEq] at h
            subst h
            exact writeRefreshTokenFirstMatch_mem tok ps entry hf

/-- C8 witness: with a consumer secret present and a response carrying a
changed refresh token, the config-file persistence event happens between
the in-memory access-token write and the in-memory refresh-token
replacement. -/
theorem C8_token_lifecycle_witness :
    (getAccessToken
      { accessToken := none, refreshToken := some "oldTok",
        consumerKey := some "key", consumerSecret := some "sec" }
      (.ok { access_token := "accTok", refresh_token := "newTok" })).2 =
      [TokenEvent.setAccessTokenMem "accTok",
       TokenEvent.persistRefreshTokenToConfigFile "newTok",
       TokenEvent.setRefreshTokenMem "newTok"] :=
  (C8_token_lifecycle.2.2.1
    { accessToken := none, refreshToken := some "oldTok",
      consumerKey := some "key", consumerSecret := some "sec" }
    "sec" { access_token := "accTok", refresh_token := "newTok" }
    rfl (by simp)).1

/-! ## Claim C9 -/

/-- Helper: the per-entry device loop of `verifyConfig` throws exactly when
some entry is missing its device class while not hidden, or is missing its
device id. -/
theorem checkDeviceEntries_error_iff :
    ∀ ds : List DeviceConfigEntry,
      (∃ e, checkDeviceEntries ds = .error e) ↔
        ∃ d ∈ ds, (d.hide_device = false ∧ d.deviceClass = none) ∨ d.deviceID = none := by
  intro ds
  induction ds with
  | nil => simp [checkDeviceEntries]
  | cons d rest ih =>
      simp only [checkDeviceEntries]
      split_ifs with h1 h2
      · constructor
        · intro _
          exact ⟨d, by simp, Or.inl ⟨by simpa using h1.1, h1.2⟩⟩
        · intro _
          exact ⟨_, rfl⟩
      · constructor
        · intro _
          exact ⟨d, by simp, Or.inr h2⟩
        · intro _
          exact ⟨_, rfl⟩
      · rw [ih]
        constructor
        · rintro ⟨d2, hd2, hp⟩
          exact ⟨d2, by simp [hd2], hp⟩
        · rintro ⟨d2, hd2, hp⟩
          rcases List.mem_cons.1 hd2 with rfl | hmem
          · rcases hp with ⟨hf, hc⟩ | hid
            · exact absurd ⟨by simp [hf], hc⟩ h1
            · exact absurd hid h2
          · exact ⟨d2, hmem, hp⟩

/-- C9: `verifyConfig` throws exactly when the (defaulted) options set a
refresh rate below 30 seconds, omit the consumer key or refresh token
credential, or list a device entry missing its device id or missing its
device class while not hidden; and a config that passes with `refreshRate`
and `pushRate` unset comes back with the defaults 120 and 0.1 filled in
and every other field unchanged. -/
theorem C9_verifyConfig :
    (∀ c : PlatformConfig,
      (∃ e, verifyConfig c = .error e) ↔
        ((∃ ds, (c.options.getD emptyOptions).devices = some ds ∧
            ∃ d ∈ ds, (d.hide_device = false ∧ d.deviceClass = none) ∨ d.deviceID = none) ∨
         (∃ r, (c.options.getD emptyOptions).refreshRate = some r ∧ r < 30) ∨
         (c.credentials.getD emptyCredentials).consumerKey = none ∨
         (c.credentials.getD emptyCredentials).refreshToken = none)) ∧
    (∀ (c : PlatformConfig) (opts : PlatformOptions) (c2 : PlatformConfig),
      c.options = some opts → opts.refreshRate = none → opts.pushRate = none →
      verifyConfig c = .ok c2 →
      c2 = { options := some
               { opts with refreshRate := some 120, pushRate := some (1/10) },
             credentials := some (c.credentials.getD emptyCredentials) }) := by
  constructor
  · intro c
    simp only [verifyConfig]
    cases hdc : (match (c.options.getD emptyOptions).devices with
                 | some ds => checkDeviceEntries ds
                 | none => Except.ok ()) with
    | error e =>
        constructor
        · intro _
          left
          cases hdev : (c.options.getD emptyOptions).devices with
          | none => simp [hdev] at hdc
          | some ds =>
              simp only [hdev] at hdc
              exact ⟨ds, rfl, (checkDeviceEntries_error_iff ds).1 ⟨e, hdc⟩⟩
        · intro _
          exact ⟨e, rfl⟩
    | ok u =>
        have hnobad : ¬ (∃ ds, (c.options.getD emptyOptions).devices = some ds ∧
            ∃ d ∈ ds, (d.hide_device = false ∧ d.deviceClass = none) ∨
              d.deviceID = none) := by
          rintro ⟨ds, hds, hbad⟩
          obtain ⟨e, he⟩ := (checkDeviceEntries_error_iff ds).2 hbad
          simp [hds, he] at hdc
        cases hrr : (c.options.getD emptyOptions).refreshRate with
        | some r =>
            by_cases h30 : r < 30
            · simp [h30, hnobad, hrr]
            · have hr0 : r ≠ 0 := by
                intro h0
                exact h30 (by rw [h0]; norm_num)
              by_cases hck : (c.credentials.getD emptyCredentials).consumerKey = none <;>
                by_cases hrt :
                  (c.credentials.getD emptyCredentials).refreshToken = none <;>
                  simp [h30, hck, hrt, truthyNum, hr0, hnobad, hrr]
        | none =>
            by_cases hck : (c.credentials.getD emptyCredentials).consumerKey = none <;>
              by_cases hrt : (c.credentials.getD emptyCredentials).refreshToken = none <;>
                simp [hck, hrt, truthyNum, hnobad, hrr]
  · intro c opts c2 hopts hrr hpr hok
    simp only [verifyConfig, hopts, Option.getD_some] at hok
    cases hdc : (match opts.devices with
                 | some ds => checkDeviceEntries ds
                 | none => Except.ok ()) with
    | error e => simp [hdc] at hok
    | ok u =>
        simp only [hdc, hrr, hpr, truthyNum] at hok
        by_cases hck : (c.credentials.getD emptyCredentials).consumerKey = none
        · simp [hck] at hok
        · by_cases hrt : (c.credentials.getD emptyCredentials).refreshToken = none
          · simp [hck, hrt] at hok
          · simp [hck, hrt] at hok
            rw [hok.symm]
            norm_num

/-- C9 witness: a config with `refreshRate: 10` (below 30) is rejected. -/
theorem C9_verifyConfig_witness :
    ∃ e, verifyConfig
      { options := some { refreshRate := some 10, pushRate := none,
                          devices := none, logging := none },
        credentials := some { consumerKey := some "key", consumerSecret := none,
                              refreshToken := some "tok", accessToken := none } }
      = .error e :=
  (C9_verifyConfig.1 _).2 (Or.inr (Or.inl ⟨10, rfl, by norm_num⟩))

/-! ## Claim C1 -/

/-- Core debounce invariant: while every processed event happens no later
than `b` and the armed deadline (if any) is at least `b`, no push can fire
during the fold — pushes accumulate unchanged, the mirror is the plain
fold of the setters, deadlines stay at least `b`, and the timer ends
disarmed iff it started disarmed and no processed event emitted. -/
theorem debounce_foldl_no_fire (device : ResideoDeviceInfo) (tss : Option String)
    (w b : ℚ) :
    ∀ (events : List TimedCall) (s : DebounceState),
      (∀ e ∈ events, e.time ≤ b ∧ b ≤ e.time + w) →
      (∀ d, s.pendingDeadline = some d → b ≤ d) →
      ((events.foldl (debounceStep device tss w) s).pushes = s.pushes ∧
       (events.foldl (debounceStep device tss w) s).mirror =
         events.foldl (fun m e => applySetter device m e.call) s.mirror ∧
       (∀ d, (events.foldl (debounceStep device tss w) s).pendingDeadline = some d →
          b ≤ d) ∧
       ((events.foldl (debounceStep device tss w) s).pendingDeadline = none ↔
          (s.pendingDeadline = none ∧
           ∀ e ∈ events, emitsThermostatUpdate device e.call = false))) := by
  intro events
  induction events with
  | nil =>
      intro s _ hp
      exact ⟨rfl, rfl, hp, by simp⟩
  | cons e es ih =>
      intro s hb hp
      have hbe := hb e (by simp)
      have hstep : debounceStep device tss w s e =
          { mirror := applySetter device s.mirror e.call,
            pendingDeadline :=
              if emitsThermostatUpdate device e.call then some (e.time + w)
              else s.pendingDeadline,
            pushes := s.pushes } := by
        rw [debounceStep]
        cases hpd : s.pendingDeadline with
        | none => simp [hpd]
        | some d =>
            have hd : b ≤ d := hp d hpd
            have hnlt : ¬ d < e.time := by
              intro hlt
              exact absurd (lt_of_le_of_lt (le_trans hbe.1 hd) hlt) (lt_irrefl _)
            simp [hnlt, hpd]
      have hp2 : ∀ d, (debounceStep device tss w s e).pendingDeadline = some d →
          b ≤ d := by
        rw [hstep]
        intro d hd
        by_cases hem : emitsThermostatUpdate device e.call
        · simp only [hem, if_true] at hd
          cases hd
          exact hbe.2
        · simp only [hem, if_false] at hd
          exact hp d hd
      have hb2 : ∀ e2 ∈ es, e2.time ≤ b ∧ b ≤ e2.time + w := by
        intro e2 he2
        exact hb e2 (by simp [he2])
      obtain ⟨ihp, ihm, ihd, ihn⟩ := ih (debounceStep device tss w s e) hb2 hp2
      refine ⟨?_, ?_, ?_, ?_⟩
      · rw [List.foldl_cons, ihp, hstep]
      · rw [List.foldl_cons, ihm, hstep, List.foldl_cons]
      · rw [List.foldl_cons]
        exact ihd
      · rw [List.foldl_cons, ihn, hstep]
        by_cases hem : emitsThermostatUpdate device e.call
        · simp [hem]
        · simp [hem]

/-- Helper: for every device model other than `Unknown` (including
`Round`), the push payload contains both `heatSetpoint` and
`coolSetpoint`, whatever the target state — a full resend, not a diff. -/
theorem buildPushPayload_setpoints (device : ResideoDeviceInfo)
    (tss : Option String) (m : ThermostatMirror)
    (h : device.deviceModel ≠ "Unknown") :
    (buildPushPayload device tss m).heatSetpoint.isSome = true ∧
    (buildPushPayload device tss m).coolSetpoint.isSome = true := by
  rw [buildPushPayload]
  by_cases h1 : m.TargetHeatingCoolingState = some 1 <;>
    by_cases h2 : m.TargetHeatingCoolingState = some 2 <;>
      simp [h, h1, h2]

/-- C1 (amended): when all the setter calls of a session fall inside one
debounce window (every event time lies in `[b - w, b]` for some bound `b`)
and at least one of them emits the `doThermostatUpdate` signal — every
threshold or target-temperature setter does, and a mode setter does unless
it re-selects the mode the device already reports — the session fires
exactly one `pushChanges`, whose payload is rebuilt from the mirror at
send time, i.e. after ALL the setter calls (last writes win, no per-call
snapshots); and for device models other than `Round` and `Unknown` that
payload carries both `heatSetpoint` and `coolSetpoint`. -/
theorem C1_debounce_coalesce (device : ResideoDeviceInfo) (tss : Option String)
    (w b : ℚ) (m₀ : ThermostatMirror) (events : List TimedCall)
    (hspan : ∀ e ∈ events, e.time ≤ b ∧ b ≤ e.time + w)
    (hemit : ∃ e ∈ events, emitsThermostatUpdate device e.call = true) :
    runThermostatSession device tss w m₀ events =
      [buildPushPayload device tss (finalMirror device m₀ events)] ∧
    (device.deviceModel ≠ "Round" → device.deviceModel ≠ "Unknown" →
      ((buildPushPayload device tss
          (finalMirror device m₀ events)).heatSetpoint.isSome = true ∧
       (buildPushPayload device tss
          (finalMirror device m₀ events)).coolSetpoint.isSome = true)) := by
  obtain ⟨hpush, hmir, _, hnone⟩ :=
    debounce_foldl_no_fire device tss w b events
      { mirror := m₀, pendingDeadline := none, pushes := [] } hspan
      (by intro d hd; simp at hd)
  constructor
  · rw [runThermostatSession]
    cases hs : (events.foldl (debounceStep device tss w)
        { mirror := m₀, pendingDeadline := none, pushes := [] }).pendingDeadline with
    | none =>
        exfalso
        obtain ⟨e, he, hem⟩ := hemit
        have := (hnone.mp hs).2 e he
        rw [this] at hem
        exact Bool.false_ne_true hem
    | some dd =>
        rw [hpush, hmir]
        rfl
  · intro _ h2
    exact buildPushPayload_setpoints device tss _ h2

/-- C1 counterexample for the claim as stated: a single rapid
`setTargetHeatingCoolingState` call that re-selects the mode the device
already reports (`HomeKitModes[Heat] = 1`) emits no `doThermostatUpdate`
signal, so the session fires ZERO pushes, not exactly one. -/
theorem C1_counterexample :
    runThermostatSession
      { deviceModel := "T5", units := "Fahrenheit",
        changeableValues := { mode := "Heat", heatSetpoint := 70,
                              coolSetpoint := 78, autoChangeoverActive := false },
        retry := false, hide_humidity := false, indoorHumidity := false,
        hide_fan := true, settingsFan := false }
      none 1
      { TargetTemperature := 20, CurrentTemperature := 20,
        TemperatureDisplayUnits := 0, TargetHeatingCoolingState := some 3,
        CurrentHeatingCoolingState := 0, CoolingThresholdTemperature := 25,
        HeatingThresholdTemperature := 18 }
      [{ time := 0, call := SetterCall.setTargetHeatingCoolingState 1 }] = [] := by
  rfl

/-- The device of the C1 witness session. -/
def devC1 : ResideoDeviceInfo :=
  { deviceModel := "T5", units := "Fahrenheit",
    changeableValues := { mode := "Heat", heatSetpoint := 70,
                          coolSetpoint := 78, autoChangeoverActive := false },
    retry := false, hide_humidity := false, indoorHumidity := false,
    hide_fan := true, settingsFan := false }

/-- The initial mirror of the C1 witness session. -/
def mC1 : ThermostatMirror :=
  { TargetTemperature := 20, CurrentTemperature := 20,
    TemperatureDisplayUnits := 0, TargetHeatingCoolingState := some 3,
    CurrentHeatingCoolingState := 0, CoolingThresholdTemperature := 25,
    HeatingThresholdTemperature := 18 }

/-- The events of the C1 witness session: two rapid setter calls, half a
debounce window apart. -/
def evC1 : List TimedCall :=
  [{ time := 0, call := SetterCall.setTargetTemperature 21 },
   { time := 1/2, call := SetterCall.setHeatingThresholdTemperature 19 }]

/-- C1 witness: two rapid setter calls inside one window produce exactly
one push, built from the final mirror. -/
theorem C1_debounce_coalesce_witness :
    runThermostatSession devC1 none 1 mC1 evC1 =
      [buildPushPayload devC1 none (finalMirror devC1 mC1 evC1)] :=
  (C1_debounce_coalesce devC1 none 1 (1/2) mC1 evC1
    (by
      intro e he
      simp only [evC1, List.mem_cons, List.mem_singleton,
        List.not_mem_nil, or_false] at he
      rcases he with rfl | rfl <;> constructor <;> norm_num)
    ⟨{ time := 0, call := SetterCall.setTargetTemperature 21 },
     by simp [evC1], rfl⟩).1

/-! ## Claim C7 -/

/-- C7 (amended): `refreshStatus` and `pushChanges` of the thermostat and
valve adapters never propagate an exception to their caller — every input
maps to `.ok`.  On a failed fetch or write, the thermostat methods log the
classified error and write the error value to the `apiError` characteristic
set (the thermostat-service characteristics plus the visible humidity/fan
ones — NOT every host-visible characteristic: the StatefulProgrammableSwitch
pair is skipped); the valve `refreshStatus` logs and marks only `Active`,
and the valve `pushChanges` only logs.  The mirror is left unchanged on
every failure path. -/
theorem C7_error_containment :
    (∀ (device : ResideoDeviceInfo) (m : ThermostatMirror)
        (fd : Except String RawThermostatStatus) (ff fr : Except String Unit),
      (∃ v, refreshStatusThermostat device m fd ff fr = .ok v) ∧
      (∀ e, fd = .error e →
        ∃ effs, refreshStatusThermostat device m fd ff fr = .ok (m, effs) ∧
          ThermostatEffect.logResideoAPIError "refreshStatus" ∈ effs ∧
          ThermostatEffect.markCharacteristicsWithError
            (apiErrorCharacteristics device) ∈ effs)) ∧
    (∀ (device : ResideoDeviceInfo) (tss : Option String) (m : ThermostatMirror)
        (rr : Except String Unit),
      (∃ v, pushChangesThermostat device tss m rr = .ok v) ∧
      (∀ e, rr = .error e →
        ∃ effs, pushChangesThermostat device tss m rr = .ok (m, effs) ∧
          ThermostatEffect.logResideoAPIError "pushChanges" ∈ effs ∧
          ThermostatEffect.markCharacteristicsWithError
            (apiErrorCharacteristics device) ∈ effs)) ∧
    (∀ (retry : Bool) (m : ValveMirror) (f : Except String RawValveStatus),
      (∃ v, refreshStatusValve retry m f = .ok v) ∧
      (∀ e, f = .error e →
        ∃ effs, refreshStatusValve retry m f = .ok (m, effs) ∧
          ValveEffect.logResideoAPIError "refreshStatus" ∈ effs ∧
          ValveEffect.markCharacteristicsWithError
            valveApiErrorCharacteristics ∈ effs)) ∧
    (∀ (m : ValveMirror) (rr : Except String Unit),
      (∃ v, pushChangesValve m rr = .ok v) ∧
      (∀ e, rr = .error e →
        ∃ effs, pushChangesValve m rr = .ok (m, effs) ∧
          ValveEffect.logResideoAPIError "pushChanges" ∈ effs)) := by
  refine ⟨?_, ?_, ?_, ?_⟩
  · intro device m fd ff fr
    constructor
    · cases fd <;> cases ff <;> cases fr <;> exact ⟨_, rfl⟩
    · intro e he
      subst he
      refine ⟨_, rfl, ?_, ?_⟩ <;> by_cases hr : device.retry <;> simp [hr]
  · intro device tss m rr
    constructor
    · cases rr <;> exact ⟨_, rfl⟩
    · intro e he
      subst he
      refine ⟨_, rfl, ?_, ?_⟩ <;> by_cases hr : device.retry <;>
        simp [pushChangesThermostat, hr]
  · intro retry m f
    constructor
    · cases f <;> exact ⟨_, rfl⟩
    · intro e he
      subst he
      refine ⟨_, rfl, ?_, ?_⟩ <;> by_cases hr : retry <;> simp [hr]
  · intro m rr
    constructor
    · cases rr <;> exact ⟨_, rfl⟩
    · intro e he
      subst he
      exact ⟨_, rfl, by simp [pushChangesValve]⟩

/-- C7 counterexample for the claim as stated: on a failed valve
`refreshStatus`, `apiError` writes the error marker only to `Active`; the
host-visible `InUse` characteristic of the same accessory is NOT marked,
so the error is not surfaced on every host-visible characteristic. -/
theorem C7_counterexample :
    refreshStatusValve false { Active := 1, InUse := 1 } (.error "500") =
      .ok ({ Active := 1, InUse := 1 },
        [ValveEffect.logResideoAPIError "refreshStatus",
         ValveEffect.markCharacteristicsWithError valveApiErrorCharacteristics]) ∧
    ValveCharacteristic.InUse ∈ valveVisibleCharacteristics ∧
    ValveCharacteristic.InUse ∉ valveApiErrorCharacteristics := by
  refine ⟨rfl, ?_, ?_⟩
  · simp [valveVisibleCharacteristics]
  · simp [valveApiErrorCharacteristics]

/-- C7 witness: a failed thermostat `refreshStatus` resolves (no
exception), logs, and marks the `apiError` characteristic set. -/
theorem C7_error_containment_witness :
    ∃ effs, refreshStatusThermostat devC1 mC1 (.error "500") (.ok ()) (.ok ())
        = .ok (mC1, effs) ∧
      ThermostatEffect.logResideoAPIError "refreshStatus" ∈ effs ∧
      ThermostatEffect.markCharacteristicsWithError
        (apiErrorCharacteristics devC1) ∈ effs :=
  (C7_error_containment.1 devC1 mC1 (.error "500") (.ok ()) (.ok ())).2 "500" rfl
